import Mathlib

/-
Verification of the perplexity automation service (src/perplexity_api.py).

The source is a single Python script.  The shallow embedding below models:
 * `wait_for_typing_completion` (lines 21-69) as a deterministic loop over a
   stream of observed texts, one sample per 200ms poll tick, so 60 seconds
   are 300 ticks and the 300 second ceiling is 1500 ticks;
 * the typing / research / submit phases of `inputFieldCheck` (lines 122-232)
   over an oracle environment describing what each DOM lookup, click and
   keystroke would do, producing the list of key events actually sent;
 * `getResult` (lines 235-485) at the granularity of its three failure points
   (copy control found, click delivered, clipboard non-empty) plus the exact
   citation truncation `clipboard_content.split("[1]")[0]` (line 476);
 * `run_perplexity` / `ask_perplexity` (lines 488-531) with an explicit trace
   of session open/close events and the HTTP status/body mapping.
Python float thresholds `0.95 * n`, `0.8 * n`, `0.5 * n` compared against
integer lengths are modelled exactly as rational comparisons (95*n <= 100*l
etc.); for lengths below 10^12 the float and rational comparisons agree.
-/

namespace Perplexity

/-- Characters removed by Python's `str.strip()` for ASCII text (used at
line 33, 152 and 208 of the source). -/
def isPySpace (c : Char) : Bool :=
  c == ' ' || c == '\t' || c == '\n' || c == '\r' || c == '\x0b' || c == '\x0c'

/-- Python `s.strip()` on a character list: drop whitespace from both ends. -/
def pyStrip (s : List Char) : List Char :=
  ((s.dropWhile isPySpace).reverse.dropWhile isPySpace).reverse

/-- Loop state of `wait_for_typing_completion` (lines 25-27): `last_text`,
`stable_count`, and `last_progress_time` measured in 200ms poll ticks. -/
structure TypingState where
  lastText : List Char
  stableCount : Nat
  lastProgressTick : Nat
deriving DecidableEq

/-- Result of one poll iteration: either the function returns True
(`done viaStall` records whether the stall rule of lines 53-57 fired rather
than the stability rule of lines 38-41), or the loop continues. -/
inductive StepResult where
  | done (viaStall : Bool)
  | next (st : TypingState)
deriving DecidableEq

/-- Stalled-typing check, lines 52-60: if no progress for more than 60s
(300 ticks), accept when observed length is at least 80 percent of the
expected length, otherwise reset the stall timer and keep polling. -/
def stallCheck (expectedLen i : Nat) (cur : List Char) (st : TypingState) : StepResult :=
  if 300 < i - st.lastProgressTick then
    if 8 * expectedLen ≤ 10 * cur.length then StepResult.done true
    else StepResult.next { st with lastProgressTick := i }
  else StepResult.next st

/-- One iteration of the monitoring loop body, lines 30-62.  The observed
text is stripped (line 33); if unchanged the stability counter grows and at
6 the text is accepted when at least 95 percent of the expected length,
reset to 0 when nonempty but shorter (lines 36-44); on a change the counter
restarts and a nonempty text updates the progress tick (lines 45-50);
finally the stall check of lines 52-60 runs. -/
def typingStep (expectedLen i : Nat) (raw : List Char) (st : TypingState) : StepResult :=
  if pyStrip raw = st.lastText then
    if 6 ≤ st.stableCount + 1 ∧ 95 * expectedLen ≤ 100 * (pyStrip raw).length then
      StepResult.done false
    else
      stallCheck expectedLen i (pyStrip raw)
        { st with stableCount :=
            if 6 ≤ st.stableCount + 1 ∧ 0 < (pyStrip raw).length then 0
            else st.stableCount + 1 }
  else
    stallCheck expectedLen i (pyStrip raw)
      { lastText := pyStrip raw, stableCount := 0,
        lastProgressTick := if 0 < (pyStrip raw).length then i else st.lastProgressTick }

/-- The `while time.time() - start_time < max_wait` loop of lines 29-66,
driven by remaining fuel; iteration `i` happens at elapsed time 0.2*i
seconds, so the 300s ceiling admits ticks 0..1499. -/
def typingLoopAux (expectedLen : Nat) (stream : Nat → List Char) : Nat → Nat → TypingState → Bool
  | 0, _, _ => false
  | fuel + 1, i, st =>
    match typingStep expectedLen i (stream i) st with
    | StepResult.done _ => true
    | StepResult.next st' => typingLoopAux expectedLen stream fuel (i + 1) st'

/-- `wait_for_typing_completion(driver, expected_text, max_wait=300)`,
lines 21-69: polls the stream every 200ms tick, returns False on timeout. -/
def wait_for_typing_completion (expected : List Char) (stream : Nat → List Char) : Bool :=
  typingLoopAux expected.length stream 1500 0
    { lastText := [], stableCount := 0, lastProgressTick := 0 }

/-- The progress tick retained after the branch on text change inside one
iteration (lines 36-50), used to state when the stall check can fire. -/
def progressAfter (i : Nat) (cur : List Char) (st : TypingState) : Nat :=
  if cur = st.lastText then st.lastProgressTick
  else if 0 < cur.length then i else st.lastProgressTick

/-- Python `'\n' in contentToType` (line 135). -/
def hasNl : List Char → Bool
  | [] => false
  | c :: rest => if c = '\n' then true else hasNl rest

/-- Python `contentToType.split('\n')` (line 136): split at every newline,
keeping empty parts, so that `"".split` gives one empty part. -/
def splitNl : List Char → List (List Char)
  | [] => [[]]
  | c :: rest =>
    if c = '\n' then [] :: splitNl rest
    else
      match splitNl rest with
      | [] => [[c]]
      | p :: ps => (c :: p) :: ps

/-- A keyboard / mouse event the submit phase can deliver to the page. -/
inductive Key where
  | sendKeys (s : List Char)
  | softNewline
  | ctrlEnter
  | enter
  | clickSubmit
  | researchToggle
deriving DecidableEq

/-- Lines 137-140: each part is sent with `send_keys`, followed by
Shift+Enter after every part but the last. -/
def segKeys : List (List Char) → List Key
  | [] => []
  | [p] => [Key.sendKeys p]
  | p :: q :: ps => Key.sendKeys p :: Key.softNewline :: segKeys (q :: ps)

/-- Lines 134-142: type the prompt, translating embedded newlines into
soft newlines; a prompt without newlines is sent as a single string. -/
def initialTypeKeys (content : List Char) : List Key :=
  if hasNl content then segKeys (splitNl content) else [Key.sendKeys content]

/-- The text a key event inserts into the input field: a soft newline
inserts one newline character, submission keys insert nothing. -/
def keyText : Key → List Char
  | Key.sendKeys s => s
  | Key.softNewline => ['\n']
  | _ => []

/-- Text reconstructed in the input field from a list of key events. -/
def decodeKeys (ks : List Key) : List Char :=
  (ks.map keyText).flatten

/-- Number of soft-newline (Shift+Enter) events in a key list. -/
def countSoftNl (ks : List Key) : Nat :=
  (ks.filter fun k => match k with | Key.softNewline => true | _ => false).length

/-- Lines 144-157: after typing, wait for completion; on the 300s ceiling
make one final read of the field (`finalRead`, `none` when the read itself
raises) and fail when the stripped text is under half the expected length.
The `raise Exception("Typing failed ...")` of line 154 is itself caught by
the `except` of line 155, so both failure paths surface as the same error. -/
def typingPhase (content : List Char) (stream : Nat → List Char)
    (finalRead : Option (List Char)) : Except String Unit :=
  if wait_for_typing_completion content stream then Except.ok ()
  else
    match finalRead with
    | none => Except.error "Cannot verify text completion after extended wait"
    | some t =>
      if 2 * (pyStrip t).length < content.length then
        Except.error "Cannot verify text completion after extended wait"
      else Except.ok ()

/-- A DOM element as the script observes it. -/
structure Elem where
  displayed : Bool
deriving DecidableEq

/-- Whether a lookup result is a visible element. -/
def foundDisplayed : Option Elem → Bool
  | some e => e.displayed
  | none => false

/-- Oracle for `select_research_mode` (lines 71-120): the three lookup
attempts for `[data-testid='search-mode-research']` (`none` when
`find_element` raises), and whether the native and script clicks succeed. -/
structure ResearchEnv where
  r1 : Option Elem
  r2 : Option Elem
  r3 : Option Elem
  clickOk : Bool
  jsClickOk : Bool

/-- Lines 80-94: the retry loop finds the button exactly when some attempt
returns a visible element (a raise on the last attempt returns False, a
non-visible element on the last attempt falls out of the loop to line 114). -/
def researchFound (env : ResearchEnv) : Bool :=
  foundDisplayed env.r1 || foundDisplayed env.r2 || foundDisplayed env.r3

/-- `select_research_mode` (lines 71-120): click the button when found,
falling back to a script click; every failure returns False, the outer
`except` of line 118 swallows everything, so the function never raises. -/
def select_research_mode (env : ResearchEnv) : Bool :=
  if researchFound env then
    if env.clickOk then true else env.jsClickOk
  else false

/-- Oracle for the submit part of `inputFieldCheck` (lines 166-228):
`p1`..`p3` are the per-attempt primary `button[data-testid='submit-button']`
lookups (`none` when `find_element` raises), `aria` the
`button[aria-label='Submit']` fallback, then the click and the keyboard
fallback actions (`fallbackRead` is the re-read of the input before
Ctrl+Enter, `none` when it raises). -/
structure SubmitEnv where
  p1 : Option Elem
  p2 : Option Elem
  p3 : Option Elem
  aria : Option Elem
  clickOk : Bool
  fallbackRead : Option (List Char)
  typeOk : Bool
  ctrlEnterOk : Bool
  enterFindOk : Bool
  enterOk : Bool

/-- Attempt 3 of the submit lookup (lines 176-195): the aria-label fallback
is only consulted from the `except` branch, i.e. when the primary lookup
raised on the final attempt; a present but hidden element ends the loop. -/
def findSubmit3 (env : SubmitEnv) : Bool :=
  match env.p3 with
  | some e => e.displayed
  | none => foundDisplayed env.aria

/-- Attempt 2 of the submit lookup: continue on raise or hidden element. -/
def findSubmit2 (env : SubmitEnv) : Bool :=
  match env.p2 with
  | some e => if e.displayed then true else findSubmit3 env
  | none => findSubmit3 env

/-- The `while attempt < max_attempts and not submit_button` loop of
lines 172-195, unrolled over its three attempts. -/
def findSubmit (env : SubmitEnv) : Bool :=
  match env.p1 with
  | some e => if e.displayed then true else findSubmit2 env
  | none => findSubmit2 env

/-- The Ctrl+Enter fallback try-block of lines 204-217: re-read the input
(re-typing the whole prompt as one raw string when it was cleared, line 211)
then send Ctrl+Enter; `none` when any of those steps raises. -/
def ctrlEnterPath (env : SubmitEnv) (content : List Char) : Option (List Key) :=
  match env.fallbackRead with
  | none => none
  | some t =>
    if (pyStrip t).length = 0 then
      if env.typeOk then
        if env.ctrlEnterOk then some [Key.sendKeys content, Key.ctrlEnter] else none
      else none
    else
      if env.ctrlEnterOk then some [Key.ctrlEnter] else none

/-- Lines 197-228: click the submit button when found (a raising click
propagates out of `inputFieldCheck`); otherwise try the Ctrl+Enter path,
then a plain Enter (lines 219-228), and fail once everything raised. -/
def submitPhase (env : SubmitEnv) (content : List Char) : Except String (List Key) :=
  if findSubmit env then
    if env.clickOk then Except.ok [Key.clickSubmit]
    else Except.error "submit button click raised"
  else
    match ctrlEnterPath env content with
    | some ks => Except.ok ks
    | none =>
      if env.enterFindOk && env.enterOk then Except.ok [Key.enter]
      else Except.error "Submit failed - all methods exhausted"

/-- Oracle for one `inputFieldCheck` call (lines 122-232). -/
structure InputEnv where
  stream : Nat → List Char
  finalRead : Option (List Char)
  research : ResearchEnv
  submit : SubmitEnv

/-- The part of `inputFieldCheck` after typing is confirmed (lines 159-228):
the research-mode activation result is only logged (its failure is
non-fatal), then the submit chain runs; the returned key list is the
full trace of events delivered to the page. -/
def submitStage (env : InputEnv) (content : List Char) (useResearch : Bool) :
    Except String (List Key) :=
  let act := useResearch && select_research_mode env.research
  match submitPhase env.submit content with
  | Except.error e => Except.error e
  | Except.ok ks =>
    Except.ok (initialTypeKeys content ++ (if act then [Key.researchToggle] else []) ++ ks)

/-- `inputFieldCheck(driver, contentToType, use_research_mode)`
(lines 122-232): type the prompt, wait for typing completion with the
final 50 percent check, then research-mode activation and submission. -/
def inputFieldCheck (env : InputEnv) (content : List Char) (useResearch : Bool) :
    Except String (List Key) :=
  match typingPhase content env.stream env.finalRead with
  | Except.error e => Except.error e
  | Except.ok _ => submitStage env content useResearch

/-- The literal citation marker `"[1]"` of line 476. -/
def citeMarker : List Char := ['[', '1', ']']

/-- Whether the citation marker starts at the head of `s`. -/
def startsWithMarker (s : List Char) : Bool :=
  citeMarker.isPrefixOf s

/-- Whether the citation marker occurs anywhere in `s`. -/
def containsMarker : List Char → Bool
  | [] => false
  | c :: rest => startsWithMarker (c :: rest) || containsMarker rest

/-- `clipboard_content.split("[1]")[0]` (line 476): the prefix of the text
before the first occurrence of the literal marker `"[1]"`, the whole text
when the marker does not occur. -/
def truncAtMarker : List Char → List Char
  | [] => []
  | c :: rest =>
    if startsWithMarker (c :: rest) then []
    else c :: truncAtMarker rest

/-- Oracle for `getResult` (lines 235-485) at the granularity of its three
failure points: whether some visible enabled copy control was found within
the 5 attempts (lines 365-411), whether one of the three click strategies
succeeded (lines 420-457), and the first non-empty clipboard read of the 3
attempts (lines 463-473), `none` when the clipboard stayed empty. -/
structure ExtractEnv where
  copyFound : Bool
  clickOk : Bool
  clipboard : Option (List Char)

/-- `getResult` (lines 235-485): generation-wait and scrolling are timing
only (never fatal, lines 243-356); then the copy control is required, the
click must land, the clipboard must be non-empty, and the retrieved text is
truncated at the first `"[1]"` (lines 475-482). -/
def getResult (env : ExtractEnv) : Except String (List Char) :=
  if env.copyFound then
    if env.clickOk then
      match env.clipboard with
      | some content => Except.ok (truncAtMarker content)
      | none => Except.error "Failed to read clipboard content after multiple attempts"
    else Except.error "All copy button click methods failed"
  else Except.error "No copy button found after 5 attempts"

/-- A session open / close event, recording which request's session. -/
inductive SessionEvent where
  | opened (id : Nat)
  | closed (id : Nat)
deriving DecidableEq

/-- Request id carried by a session event. -/
def sessionIdOf : SessionEvent → Nat
  | SessionEvent.opened i => i
  | SessionEvent.closed i => i

/-- Number of `opened` events in a trace. -/
def openedCount (tr : List SessionEvent) : Nat :=
  (tr.filter fun ev => match ev with | SessionEvent.opened _ => true | _ => false).length

/-- Number of `closed` events in a trace. -/
def closedCount (tr : List SessionEvent) : Nat :=
  (tr.filter fun ev => match ev with | SessionEvent.closed _ => true | _ => false).length

/-- The exception raised out of `run_perplexity` (line 518). -/
structure HTTPError where
  status : Nat
  detail : String
deriving DecidableEq

/-- Oracle for one `run_perplexity` call (lines 488-521): whether
`Driver(...)` succeeds (line 494), whether navigation succeeds (line 502),
and the oracles of the two pipeline stages. -/
structure RunEnv where
  launchOk : Bool
  navigateOk : Bool
  input : InputEnv
  extract : ExtractEnv

/-- The body of the `try` block after the driver exists (lines 500-514). -/
def pipelineBody (env : RunEnv) (prompt : List Char) (research : Bool) :
    Except String (List Char) :=
  if env.navigateOk then
    match inputFieldCheck env.input prompt research with
    | Except.error e => Except.error e
    | Except.ok _ => getResult env.extract
  else Except.error "navigation raised"

/-- Line 516-518: any exception becomes `HTTPException(500, "Error
processing request: ...")`. -/
def wrapError : Except String (List Char) → Except HTTPError (List Char)
  | Except.ok out => Except.ok out
  | Except.error e =>
    Except.error { status := 500, detail := "Error processing request: " ++ e }

/-- `run_perplexity` (lines 488-521) with its session trace: when the
driver launches, the `finally` of lines 519-521 closes it on every path;
when `Driver(...)` itself raises, `driver` is still None and the `finally`
closes nothing. -/
def run_perplexity (reqId : Nat) (env : RunEnv) (prompt : List Char) (research : Bool) :
    List SessionEvent × Except HTTPError (List Char) :=
  if env.launchOk then
    ([SessionEvent.opened reqId, SessionEvent.closed reqId],
     wrapError (pipelineBody env prompt research))
  else
    ([], Except.error { status := 500, detail := "Error processing request: launch raised" })

/-- The request body of `POST /ask` (lines 9-11). -/
structure PromptRequest where
  prompt : List Char
  use_research_mode : Bool := false

/-- Body of an HTTP response: `{response: ...}` on 200 (line 529) or
`{detail: ...}` on 500 (lines 518 and 531). -/
inductive ResponseBody where
  | response (text : List Char)
  | detail (msg : String)
deriving DecidableEq

/-- An HTTP response of the service. -/
structure HTTPResponse where
  status : Nat
  body : ResponseBody
deriving DecidableEq

/-- `ask_perplexity` (lines 524-531): 200 `{response}` on success, any
exception is re-raised as `HTTPException(500, detail)`. -/
def ask_perplexity (reqId : Nat) (env : RunEnv) (req : PromptRequest) :
    List SessionEvent × HTTPResponse :=
  ((run_perplexity reqId env req.prompt req.use_research_mode).1,
   match (run_perplexity reqId env req.prompt req.use_research_mode).2 with
   | Except.ok out => { status := 200, body := ResponseBody.response out }
   | Except.error h => { status := 500, body := ResponseBody.detail h.detail })

/-- Whether an `Except` is an error. -/
def isErr {ε α : Type} : Except ε α → Bool
  | Except.error _ => true
  | Except.ok _ => false

/-- A five-character prompt used in the concrete typing scenarios. -/
def c1Content : List Char := List.replicate 5 'h'

/-- A simulated observed-text stream that grows to 100 percent of
`c1Content` and then stays constant. -/
def c1Stream (i : Nat) : List Char := List.replicate (min i 5) 'h'

/-- A stream frozen forever at the same sample. -/
def frozenStream (t : List Char) : Nat → List Char := fun _ => t

/-- A stream alternating between two distinct texts of the same length. -/
def altStream (i : Nat) : List Char :=
  if i % 2 = 0 then ['a', 'b', 'c', 'd'] else ['d', 'c', 'b', 'a']

/-- A research environment whose three lookups all raise. -/
def absentResearch : ResearchEnv :=
  { r1 := none, r2 := none, r3 := none, clickOk := false, jsClickOk := false }

/-- A submit environment whose primary lookup finds a visible button on the
first attempt and whose click lands. -/
def goodSubmit : SubmitEnv :=
  { p1 := some { displayed := true }, p2 := none, p3 := none, aria := none,
    clickOk := true, fallbackRead := some ['x'], typeOk := true,
    ctrlEnterOk := true, enterFindOk := true, enterOk := true }

/-- A submit environment where every lookup raises, the input is observed
cleared, and the keyboard fallbacks succeed. -/
def fallbackSubmit : SubmitEnv :=
  { p1 := none, p2 := none, p3 := none, aria := none,
    clickOk := false, fallbackRead := some [], typeOk := true,
    ctrlEnterOk := true, enterFindOk := true, enterOk := true }

/-- A submit environment where every lookup raises and the input re-read
also raises, so that only the plain Enter fallback can succeed. -/
def enterOnlySubmit : SubmitEnv :=
  { p1 := none, p2 := none, p3 := none, aria := none,
    clickOk := false, fallbackRead := none, typeOk := true,
    ctrlEnterOk := true, enterFindOk := true, enterOk := true }

/-- An input environment where typing completes quickly (the observed text
equals the prompt `['h','i']` from the first sample on), research-mode
lookup fails, and the submit button is clicked. -/
def goodInput : InputEnv :=
  { stream := frozenStream ['h', 'i'], finalRead := none,
    research := absentResearch, submit := goodSubmit }

/-- An input environment whose typing detector times out: the observed text
stays empty against the prompt `['a','a']`, and the final read then sees an
empty field. -/
def timeoutInput : InputEnv :=
  { stream := frozenStream [], finalRead := some [],
    research := absentResearch, submit := goodSubmit }

/-- An extraction environment where copy, click and clipboard all work. -/
def goodExtract : ExtractEnv :=
  { copyFound := true, clickOk := true, clipboard := some ['o', 'k'] }

/-- A run environment whose whole pipeline succeeds (in default mode, since
the research lookup fails). -/
def goodRun : RunEnv :=
  { launchOk := true, navigateOk := true, input := goodInput, extract := goodExtract }

/-- A run environment where `Driver(...)` itself raises. -/
def launchFailRun : RunEnv :=
  { launchOk := false, navigateOk := true, input := goodInput, extract := goodExtract }

/-- The request used by the concrete HTTP scenarios. -/
def hiRequest : PromptRequest := { prompt := ['h', 'i'], use_research_mode := false }

/-- The clipboard text of the citation-truncation example. -/
def c4Input : List Char := ("Answer text [1][2] more").toList

/-- The expected truncated output of the citation-truncation example. -/
def c4Output : List Char := ("Answer text ").toList

lemma splitNl_ne_nil (s : List Char) : splitNl s ≠ [] := by
  cases s with
  | nil => simp [splitNl]
  | cons c r =>
    unfold splitNl
    by_cases hc : c = '\n'
    · simp [hc]
    · simp only [if_neg hc]
      cases h : splitNl r <;> simp

lemma decode_segKeys_cons (a : Char) (p : List Char) (ps : List (List Char)) :
    decodeKeys (segKeys ((a :: p) :: ps)) = a :: decodeKeys (segKeys (p :: ps)) := by
  cases ps <;> simp [segKeys, decodeKeys, keyText]

lemma decode_split (s : List Char) : decodeKeys (segKeys (splitNl s)) = s := by
  induction s with
  | nil => simp [splitNl, segKeys, decodeKeys, keyText]
  | cons c r ih =>
    by_cases hc : c = '\n'
    · rcases h : splitNl r with _ | ⟨p, ps⟩
      · exact absurd h (splitNl_ne_nil r)
      · rw [h] at ih
        subst hc
        simp only [splitNl, if_pos rfl, h, segKeys, decodeKeys, List.map, keyText,
          List.flatten] at ih ⊢
        simp only [List.nil_append, List.cons_append]
        exact congrArg (fun t => '\n' :: t) ih
    · rcases h : splitNl r with _ | ⟨p, ps⟩
      · exact absurd h (splitNl_ne_nil r)
      · rw [h] at ih
        have hsplit : splitNl (c :: r) = (c :: p) :: ps := by
          unfold splitNl
          rw [if_neg hc, h]
        rw [hsplit, decode_segKeys_cons, ih]

lemma hasNl_false_split (s : List Char) (h : hasNl s = false) : splitNl s = [s] := by
  induction s with
  | nil => simp [splitNl]
  | cons c r ih =>
    unfold hasNl at h
    by_cases hc : c = '\n'
    · rw [if_pos hc] at h
      cases h
    · rw [if_neg hc] at h
      unfold splitNl
      rw [if_neg hc, ih h]

lemma countSoftNl_segKeys (ps : List (List Char)) :
    countSoftNl (segKeys ps) = ps.length - 1 := by
  induction ps with
  | nil => simp [segKeys, countSoftNl]
  | cons p qs ih =>
    cases qs with
    | nil => simp [segKeys, countSoftNl]
    | cons q rest =>
      simp only [segKeys, countSoftNl, List.filter, List.length] at ih ⊢
      omega

lemma splitNl_parts (s : List Char) : ∀ p, p ∈ splitNl s → hasNl p = false := by
  induction s with
  | nil =>
    intro p hp
    simp [splitNl] at hp
    subst hp
    rfl
  | cons c r ih =>
    intro p hp
    by_cases hc : c = '\n'
    · unfold splitNl at hp
      rw [if_pos hc] at hp
      rcases List.mem_cons.mp hp with h1 | h2
      · subst h1; rfl
      · exact ih p h2
    · unfold splitNl at hp
      rw [if_neg hc] at hp
      rcases h : splitNl r with _ | ⟨q, qs⟩
      · exact absurd h (splitNl_ne_nil r)
      · rw [h] at hp
        rcases List.mem_cons.mp hp with h1 | h2
        · subst h1
          have hq : hasNl q = false := ih q (h ▸ List.mem_cons_self q qs)
          unfold hasNl
          rw [if_neg hc, hq]
        · exact ih p (h ▸ List.mem_cons_of_mem q h2)

lemma segKeys_sendKeys_mem :
    ∀ (ps : List (List Char)) (s : List Char), Key.sendKeys s ∈ segKeys ps → s ∈ ps := by
  intro ps
  induction ps with
  | nil => intro s hs; simp [segKeys] at hs
  | cons p qs ih =>
    intro s hs
    cases qs with
    | nil =>
      simp [segKeys] at hs
      simp [hs]
    | cons q rest =>
      simp only [segKeys, List.mem_cons] at hs
      rcases hs with h1 | h2 | h3
      · cases h1
        exact List.mem_cons_self _ _
      · cases h2
      · exact List.mem_cons_of_mem p (ih s h3)

lemma initialTypeKeys_no_nl (content s : List Char)
    (h : Key.sendKeys s ∈ initialTypeKeys content) : hasNl s = false := by
  unfold initialTypeKeys at h
  by_cases hn : hasNl content = true
  · rw [if_pos hn] at h
    exact splitNl_parts content s (segKeys_sendKeys_mem _ s h)
  · rw [if_neg hn] at h
    simp at h
    subst h
    exact Bool.not_eq_true _ |>.mp hn

lemma isPrefixOf_iff : ∀ (m s : List Char), m.isPrefixOf s = true ↔ ∃ t, s = m ++ t := by
  intro m
  induction m with
  | nil =>
    intro s
    simp [List.isPrefixOf]
  | cons a as ih =>
    intro s
    cases s with
    | nil => simp [List.isPrefixOf]
    | cons b bs =>
      simp only [List.isPrefixOf, Bool.and_eq_true, beq_iff_eq, List.cons_append,
        List.cons.injEq]
      constructor
      · rintro ⟨hab, h⟩
        obtain ⟨t, ht⟩ := (ih bs).mp h
        exact ⟨t, hab.symm, ht⟩
      · rintro ⟨t, hb, hbs⟩
        exact ⟨hb.symm, (ih bs).mpr ⟨t, hbs⟩⟩

lemma startsWithMarker_iff (s : List Char) :
    startsWithMarker s = true ↔ ∃ t, s = citeMarker ++ t :=
  isPrefixOf_iff citeMarker s

lemma containsMarker_iff (s : List Char) :
    containsMarker s = true ↔ ∃ p q, s = p ++ citeMarker ++ q := by
  induction s with
  | nil =>
    simp only [containsMarker]
    constructor
    · intro h; cases h
    · rintro ⟨p, q, h⟩
      cases p <;> simp [citeMarker] at h
  | cons c rest ih =>
    simp only [containsMarker, Bool.or_eq_true]
    constructor
    · rintro (h | h)
      · obtain ⟨t, ht⟩ := (startsWithMarker_iff _).mp h
        exact ⟨[], t, ht⟩
      · obtain ⟨p, q, hq⟩ := ih.mp h
        exact ⟨c :: p, q, by simp [hq]⟩
    · rintro ⟨p, q, h⟩
      cases p with
      | nil =>
        left
        exact (startsWithMarker_iff _).mpr ⟨q, by simpa using h⟩
      | cons a ps =>
        right
        simp only [List.cons_append, List.cons.injEq] at h
        exact ih.mpr ⟨ps, q, h.2⟩

lemma truncAt_no_marker (s : List Char) (h : containsMarker s = false) :
    truncAtMarker s = s := by
  induction s with
  | nil => rfl
  | cons c rest ih =>
    simp only [containsMarker, Bool.or_eq_false_iff] at h
    simp [truncAtMarker, h.1, ih h.2]

lemma truncAt_marker (s : List Char) (h : containsMarker s = true) :
    ∃ q, s = truncAtMarker s ++ citeMarker ++ q := by
  induction s with
  | nil => cases h
  | cons c rest ih =>
    by_cases hsw : startsWithMarker (c :: rest) = true
    · obtain ⟨t, ht⟩ := (startsWithMarker_iff _).mp hsw
      refine ⟨t, ?_⟩
      have h0 : truncAtMarker (c :: rest) = [] := by
        simp [truncAtMarker, hsw]
      rw [h0]
      simpa using ht
    · simp only [containsMarker, Bool.or_eq_true] at h
      rcases h with h | h
      · exact absurd h hsw
      · obtain ⟨q, hq⟩ := ih h
        refine ⟨q, ?_⟩
        have h0 : truncAtMarker (c :: rest) = c :: truncAtMarker rest := by
          simp [truncAtMarker, hsw]
        rw [h0, List.cons_append, List.cons_append]
        exact congrArg (List.cons c) hq

lemma truncAt_min : ∀ (s p q : List Char),
    s = p ++ citeMarker ++ q → (truncAtMarker s).length ≤ p.length := by
  intro s
  induction s with
  | nil =>
    intro p q h
    exfalso
    cases p <;> simp [citeMarker] at h
  | cons c rest ih =>
    intro p q h
    by_cases hsw : startsWithMarker (c :: rest) = true
    · simp [truncAtMarker, hsw]
    · cases p with
      | nil =>
        exact absurd ((startsWithMarker_iff _).mpr ⟨q, by simpa using h⟩) hsw
      | cons a ps =>
        simp only [List.cons_append, List.cons.injEq] at h
        have hrw : truncAtMarker (c :: rest) = c :: truncAtMarker rest := by
          simp [truncAtMarker, hsw]
        rw [hrw]
        simpa using Nat.succ_le_succ (ih ps q h.2)

/-- C4: the clipboard post-processing returns exactly the prefix before the
first occurrence of the literal substring `"[1]"` (there is a tail witness
and no split point can be earlier), returns the text unchanged when the
marker does not occur, maps the example `"Answer text [1][2] more"` to
`"Answer text "`, and is exactly what `getResult` applies to a retrieved
clipboard text. -/
theorem c4_citation_truncation :
    (∀ s, containsMarker s = true ↔ ∃ p q, s = p ++ citeMarker ++ q)
    ∧ (∀ s, containsMarker s = false → truncAtMarker s = s)
    ∧ (∀ s, containsMarker s = true →
        (∃ q, s = truncAtMarker s ++ citeMarker ++ q)
        ∧ ∀ p q, s = p ++ citeMarker ++ q → (truncAtMarker s).length ≤ p.length)
    ∧ truncAtMarker c4Input = c4Output
    ∧ (∀ (env : ExtractEnv) (c : List Char), env.copyFound = true → env.clickOk = true →
        env.clipboard = some c → getResult env = Except.ok (truncAtMarker c)) := by
  refine ⟨containsMarker_iff, truncAt_no_marker,
    fun s h => ⟨truncAt_marker s h, fun p q => truncAt_min s p q⟩, by decide, ?_⟩
  intro env c hf hc hclip
  simp [getResult, hf, hc, hclip]

/-- C4 witness: the characterization evaluated at the example clipboard
text and at a marker-free text. -/
theorem c4_citation_truncation_witness :
    truncAtMarker ("plain text").toList = ("plain text").toList
    ∧ (∃ q, c4Input = truncAtMarker c4Input ++ citeMarker ++ q)
    ∧ getResult goodExtract = Except.ok (truncAtMarker ['o', 'k']) :=
  ⟨c4_citation_truncation.2.1 _ (by decide),
   (c4_citation_truncation.2.2.1 c4Input (by decide)).1,
   c4_citation_truncation.2.2.2.2 goodExtract ['o', 'k'] rfl rfl rfl⟩

/-- C5: for every prompt, the typed key events reconstruct the prompt
byte-for-byte (each soft newline standing for one newline character), and
one soft newline is sent after every segment except the last. -/
theorem c5_split_join_roundtrip (content : List Char) :
    decodeKeys (initialTypeKeys content) = content
    ∧ countSoftNl (initialTypeKeys content) = (splitNl content).length - 1 := by
  constructor
  · unfold initialTypeKeys
    by_cases h : hasNl content = true
    · rw [if_pos h]
      exact decode_split content
    · rw [if_neg h]
      simp [decodeKeys, keyText]
  · unfold initialTypeKeys
    by_cases h : hasNl content = true
    · rw [if_pos h]
      exact countSoftNl_segKeys _
    · rw [if_neg h, hasNl_false_split content (Bool.not_eq_true _ |>.mp h)]
      simp [countSoftNl]

lemma stallCheck_done_true_iff (e i : Nat) (cur : List Char) (st : TypingState) :
    stallCheck e i cur st = StepResult.done true ↔
      300 < i - st.lastProgressTick ∧ 8 * e ≤ 10 * cur.length := by
  unfold stallCheck
  by_cases h1 : 300 < i - st.lastProgressTick
  · by_cases h2 : 8 * e ≤ 10 * cur.length
    · simp [h1, h2]
    · simp [h1, h2]
  · simp [h1]

lemma stallCheck_ne_done_false (e i : Nat) (cur : List Char) (st : TypingState) :
    stallCheck e i cur st ≠ StepResult.done false := by
  unfold stallCheck
  by_cases h1 : 300 < i - st.lastProgressTick
  · by_cases h2 : 8 * e ≤ 10 * cur.length
    · simp [h1, h2]
    · simp [h1, h2]
  · simp [h1]

lemma stallCheck_next_props (e i : Nat) (cur : List Char) (st st' : TypingState)
    (h : stallCheck e i cur st = StepResult.next st') :
    st'.stableCount = st.stableCount ∧ st'.lastText = st.lastText := by
  unfold stallCheck at h
  by_cases h1 : 300 < i - st.lastProgressTick
  · by_cases h2 : 8 * e ≤ 10 * cur.length
    · rw [if_pos h1, if_pos h2] at h
      cases h
    · rw [if_pos h1, if_neg h2] at h
      injection h with h
      subst h
      exact ⟨rfl, rfl⟩
  · rw [if_neg h1] at h
    injection h with h
    subst h
    exact ⟨rfl, rfl⟩

lemma stallCheck_next_reject (e i : Nat) (cur : List Char) (st st' : TypingState)
    (h1 : 300 < i - st.lastProgressTick) (h2 : 10 * cur.length < 8 * e)
    (h : stallCheck e i cur st = StepResult.next st') :
    st'.lastProgressTick = i := by
  unfold stallCheck at h
  rw [if_pos h1, if_neg (by omega : ¬8 * e ≤ 10 * cur.length)] at h
  injection h with h
  subst h
  rfl

lemma typingStep_done_false_iff (e i : Nat) (raw : List Char) (st : TypingState) :
    typingStep e i raw st = StepResult.done false ↔
      (pyStrip raw = st.lastText ∧ 6 ≤ st.stableCount + 1
        ∧ 95 * e ≤ 100 * (pyStrip raw).length) := by
  unfold typingStep
  by_cases hs : pyStrip raw = st.lastText
  · rw [if_pos hs]
    by_cases hA : 6 ≤ st.stableCount + 1 ∧ 95 * e ≤ 100 * (pyStrip raw).length
    · rw [if_pos hA]
      exact ⟨fun _ => ⟨hs, hA.1, hA.2⟩, fun _ => rfl⟩
    · rw [if_neg hA]
      constructor
      · intro h
        exact absurd h (stallCheck_ne_done_false _ _ _ _)
      · rintro ⟨_, h1, h2⟩
        exact absurd ⟨h1, h2⟩ hA
  · rw [if_neg hs]
    constructor
    · intro h
      exact absurd h (stallCheck_ne_done_false _ _ _ _)
    · rintro ⟨h1, _⟩
      exact absurd h1 hs

lemma typingStep_done_true_iff (e i : Nat) (raw : List Char) (st : TypingState) :
    typingStep e i raw st = StepResult.done true ↔
      (¬(pyStrip raw = st.lastText ∧ 6 ≤ st.stableCount + 1
          ∧ 95 * e ≤ 100 * (pyStrip raw).length)
        ∧ 300 < i - progressAfter i (pyStrip raw) st
        ∧ 8 * e ≤ 10 * (pyStrip raw).length) := by
  unfold typingStep progressAfter
  by_cases hs : pyStrip raw = st.lastText
  · rw [if_pos hs, if_pos hs]
    by_cases hA : 6 ≤ st.stableCount + 1 ∧ 95 * e ≤ 100 * (pyStrip raw).length
    · rw [if_pos hA]
      constructor
      · intro h
        simp at h
      · rintro ⟨hno, _⟩
        exact absurd ⟨hs, hA.1, hA.2⟩ hno
    · rw [if_neg hA, stallCheck_done_true_iff]
      constructor
      · rintro ⟨h1, h2⟩
        exact ⟨fun hcontra => hA ⟨hcontra.2.1, hcontra.2.2⟩, h1, h2⟩
      · rintro ⟨_, h1, h2⟩
        exact ⟨h1, h2⟩
  · rw [if_neg hs, if_neg hs, stallCheck_done_true_iff]
    constructor
    · rintro ⟨h1, h2⟩
      exact ⟨fun hcontra => hs hcontra.1, h1, h2⟩
    · rintro ⟨_, h1, h2⟩
      exact ⟨h1, h2⟩

lemma typingStep_reset (e i : Nat) (raw : List Char) (st st' : TypingState)
    (hs : pyStrip raw = st.lastText) (hc : 6 ≤ st.stableCount + 1)
    (hlt : 100 * (pyStrip raw).length < 95 * e) (hpos : 0 < (pyStrip raw).length)
    (hstep : typingStep e i raw st = StepResult.next st') :
    st'.stableCount = 0 ∧ st'.lastText = st.lastText := by
  unfold typingStep at hstep
  rw [if_pos hs] at hstep
  have hA : ¬(6 ≤ st.stableCount + 1 ∧ 95 * e ≤ 100 * (pyStrip raw).length) := by
    rintro ⟨_, h2⟩
    omega
  rw [if_neg hA, if_pos ⟨hc, hpos⟩] at hstep
  have h := stallCheck_next_props _ _ _ _ _ hstep
  exact ⟨h.1, h.2⟩

lemma typingStep_stall_reject (e i : Nat) (raw : List Char) (st st' : TypingState)
    (hno : ¬(pyStrip raw = st.lastText ∧ 6 ≤ st.stableCount + 1
        ∧ 95 * e ≤ 100 * (pyStrip raw).length))
    (hstall : 300 < i - progressAfter i (pyStrip raw) st)
    (hlt : 10 * (pyStrip raw).length < 8 * e)
    (hstep : typingStep e i raw st = StepResult.next st') :
    st'.lastProgressTick = i := by
  unfold progressAfter at hstall
  unfold typingStep at hstep
  by_cases hs : pyStrip raw = st.lastText
  · have hA : ¬(6 ≤ st.stableCount + 1 ∧ 95 * e ≤ 100 * (pyStrip raw).length) := by
      intro h
      exact hno ⟨hs, h⟩
    rw [if_pos hs] at hstall
    rw [if_pos hs, if_neg hA] at hstep
    exact stallCheck_next_reject e i (pyStrip raw)
      { st with stableCount :=
          if 6 ≤ st.stableCount + 1 ∧ 0 < (pyStrip raw).length then 0
          else st.stableCount + 1 }
      st' hstall hlt hstep
  · rw [if_neg hs] at hstall
    rw [if_neg hs] at hstep
    exact stallCheck_next_reject e i (pyStrip raw)
      { lastText := pyStrip raw, stableCount := 0,
        lastProgressTick := if 0 < (pyStrip raw).length then i else st.lastProgressTick }
      st' hstall hlt hstep

set_option maxRecDepth 1000000 in
/-- C1 counterexample: against prompt length 10, a stream frozen forever at
a stripped text of length 8 makes the detector declare success (through the
stall rule at tick 301) although no sample ever reaches 95 percent of the
prompt length, refuting "declares success ... exactly when ... at least
95%". -/
theorem c1_counterexample :
    wait_for_typing_completion (List.replicate 10 'a')
        (frozenStream (List.replicate 8 'b')) = true
    ∧ ∀ i, 100 * (pyStrip (frozenStream (List.replicate 8 'b') i)).length
        < 95 * (List.replicate 10 'a').length := by
  refine ⟨by decide, ?_⟩
  intro i
  show 100 * (pyStrip (List.replicate 8 'b')).length < 95 * (List.replicate 10 'a').length
  decide

set_option maxRecDepth 1000000 in
/-- C1 (amended): the detector declares stability-based success at a sample
exactly when the stripped sample equals the retained previous text, the
stability counter reaches 6, and the length is at least 95 percent of the
prompt length; when the counter reaches 6 on a nonempty text below that
threshold the counter is reset to 0 (and the retained text kept) whenever
the loop continues; the stall rule (C2) may separately declare success.
A stream that reaches 100 percent and stays constant is accepted. -/
theorem c1_stability_rule :
    (∀ e i raw st, typingStep e i raw st = StepResult.done false ↔
        (pyStrip raw = st.lastText ∧ 6 ≤ st.stableCount + 1
          ∧ 95 * e ≤ 100 * (pyStrip raw).length))
    ∧ (∀ e i raw st st', pyStrip raw = st.lastText → 6 ≤ st.stableCount + 1 →
        100 * (pyStrip raw).length < 95 * e → 0 < (pyStrip raw).length →
        typingStep e i raw st = StepResult.next st' →
        st'.stableCount = 0 ∧ st'.lastText = st.lastText)
    ∧ wait_for_typing_completion c1Content c1Stream = true :=
  ⟨typingStep_done_false_iff, typingStep_reset, by decide⟩

/-- C1 witness: the stability rule fires at a concrete stable sample at
100 percent with counter reaching 6, and a concrete stable-but-short sample
continues with the counter reset. -/
theorem c1_stability_rule_witness :
    typingStep 10 0 (List.replicate 10 'a')
      { lastText := List.replicate 10 'a', stableCount := 5, lastProgressTick := 0 }
      = StepResult.done false
    ∧ ({ lastText := List.replicate 8 'a', stableCount := 0, lastProgressTick := 0 }
        : TypingState).stableCount = 0 := by
  constructor
  · exact (c1_stability_rule.1 10 0 (List.replicate 10 'a')
      { lastText := List.replicate 10 'a', stableCount := 5, lastProgressTick := 0 }).mpr
      ⟨by decide, by decide, by decide⟩
  · exact (c1_stability_rule.2.1 10 20 (List.replicate 8 'a')
      { lastText := List.replicate 8 'a', stableCount := 5, lastProgressTick := 0 }
      { lastText := List.replicate 8 'a', stableCount := 0, lastProgressTick := 0 }
      (by decide) (by decide) (by decide) (by decide) (by decide)).1

set_option maxRecDepth 1000000 in
/-- C2 counterexample: a stream alternating between two distinct texts of
the same length 4 against a prompt of length 5 never grows in length, sits
at exactly 80 percent, yet is never accepted: the detector runs to its
ceiling and returns False, because the code tracks progress by text change
(line 50), not by length growth. -/
theorem c2_counterexample :
    wait_for_typing_completion (List.replicate 5 'a') altStream = false
    ∧ (∀ i, (pyStrip (altStream i)).length = 4)
    ∧ 8 * (List.replicate 5 'a').length ≤ 10 * 4
    ∧ altStream 0 ≠ altStream 1 := by
  refine ⟨by decide, ?_, by decide, by decide⟩
  intro i
  unfold altStream
  by_cases h : i % 2 = 0
  · rw [if_pos h]
    decide
  · rw [if_neg h]
    decide

set_option maxRecDepth 1000000 in
/-- C2 (amended): the stall rule declares success at a sample exactly when
the stability rule does not fire there, more than 60 seconds (300 ticks)
passed since the progress tick retained after this sample's change check
(progress being a change of the observed text to a nonempty value), and the
stripped length is at least 80 percent of the prompt length; below 80
percent the stall timer is reset and polling continues; a stream frozen at
exactly 80 percent is accepted after the stall while one frozen at 79
percent never is. -/
theorem c2_stall_rule :
    (∀ e i raw st, typingStep e i raw st = StepResult.done true ↔
        (¬(pyStrip raw = st.lastText ∧ 6 ≤ st.stableCount + 1
            ∧ 95 * e ≤ 100 * (pyStrip raw).length)
          ∧ 300 < i - progressAfter i (pyStrip raw) st
          ∧ 8 * e ≤ 10 * (pyStrip raw).length))
    ∧ (∀ e i raw st st',
        ¬(pyStrip raw = st.lastText ∧ 6 ≤ st.stableCount + 1
            ∧ 95 * e ≤ 100 * (pyStrip raw).length) →
        300 < i - progressAfter i (pyStrip raw) st →
        10 * (pyStrip raw).length < 8 * e →
        typingStep e i raw st = StepResult.next st' →
        st'.lastProgressTick = i)
    ∧ wait_for_typing_completion (List.replicate 5 'a')
        (frozenStream (List.replicate 4 'b')) = true
    ∧ wait_for_typing_completion (List.replicate 100 'a')
        (frozenStream (List.replicate 79 'b')) = false :=
  ⟨typingStep_done_true_iff, typingStep_stall_reject, by decide, by decide⟩

/-- C2 witness: the stall rule accepts a concrete 80 percent sample 301
ticks after the last progress, and resets the stall timer at a concrete 40
percent sample. -/
theorem c2_stall_rule_witness :
    typingStep 10 301 (List.replicate 8 'b')
      { lastText := List.replicate 8 'b', stableCount := 0, lastProgressTick := 0 }
      = StepResult.done true
    ∧ ({ lastText := List.replicate 4 'b', stableCount := 1, lastProgressTick := 320 }
        : TypingState).lastProgressTick = 320 := by
  constructor
  · exact (c2_stall_rule.1 10 301 (List.replicate 8 'b')
      { lastText := List.replicate 8 'b', stableCount := 0, lastProgressTick := 0 }).mpr
      ⟨by decide, by decide, by decide⟩
  · exact c2_stall_rule.2.1 10 320 (List.replicate 4 'b')
      { lastText := List.replicate 4 'b', stableCount := 0, lastProgressTick := 10 }
      { lastText := List.replicate 4 'b', stableCount := 1, lastProgressTick := 320 }
      (by decide) (by decide) (by decide) (by decide)

/-- C3: when the typing detector reaches its ceiling and returns False, the
operation consults the one final read of the input field and fails exactly
when the observed stripped length is below half of the prompt length,
otherwise it proceeds to the submit stage. -/
theorem c3_final_check (env : InputEnv) (content : List Char) (research : Bool)
    (t : List Char)
    (hwait : wait_for_typing_completion content env.stream = false)
    (hread : env.finalRead = some t) :
    (2 * (pyStrip t).length < content.length →
      inputFieldCheck env content research
        = Except.error "Cannot verify text completion after extended wait")
    ∧ (content.length ≤ 2 * (pyStrip t).length →
      inputFieldCheck env content research = submitStage env content research) := by
  constructor
  · intro hlt
    simp [inputFieldCheck, typingPhase, hwait, hread, hlt]
  · intro hge
    have hnot : ¬(2 * (pyStrip t).length < content.length) := by omega
    simp [inputFieldCheck, typingPhase, hwait, hread, hnot]

set_option maxRecDepth 1000000 in
/-- C3 witness: a detector run that times out against the prompt "aa" with
an empty final read fails the whole operation. -/
theorem c3_final_check_witness :
    wait_for_typing_completion ['a', 'a'] timeoutInput.stream = false
    ∧ inputFieldCheck timeoutInput ['a', 'a'] false
        = Except.error "Cannot verify text completion after extended wait" := by
  have hwait : wait_for_typing_completion ['a', 'a'] timeoutInput.stream = false := by
    decide
  exact ⟨hwait, (c3_final_check timeoutInput ['a', 'a'] false [] hwait rfl).1 (by decide)⟩

/-- C6 counterexample: when the driver launch itself raises, the request
still concludes as an internal fault (HTTP 500) but zero sessions are
opened and zero closed, refuting "for every request outcome exactly one
browser session is opened and exactly one is closed". -/
theorem c6_counterexample :
    (ask_perplexity 0 launchFailRun hiRequest).2.status = 500
    ∧ (ask_perplexity 0 launchFailRun hiRequest).1 = []
    ∧ openedCount (ask_perplexity 0 launchFailRun hiRequest).1 = 0 :=
  ⟨rfl, rfl, rfl⟩

/-- C6 (amended): when the launch succeeds, exactly one session is opened
and exactly one closed regardless of the pipeline outcome; when the launch
itself raises, none is opened and none closed; in every case the opened and
closed counts agree, are at most one, and every session event carries the
request's own id, so sessions are never shared across requests. -/
theorem c6_session_lifecycle (reqId : Nat) (env : RunEnv) (prompt : List Char)
    (research : Bool) :
    (env.launchOk = true →
      (run_perplexity reqId env prompt research).1
        = [SessionEvent.opened reqId, SessionEvent.closed reqId])
    ∧ (env.launchOk = false → (run_perplexity reqId env prompt research).1 = [])
    ∧ openedCount (run_perplexity reqId env prompt research).1
        = closedCount (run_perplexity reqId env prompt research).1
    ∧ openedCount (run_perplexity reqId env prompt research).1 ≤ 1
    ∧ ∀ ev ∈ (run_perplexity reqId env prompt research).1, sessionIdOf ev = reqId := by
  unfold run_perplexity
  cases h : env.launchOk with
  | true =>
    refine ⟨fun _ => rfl, ?_, rfl, Nat.le_refl 1, ?_⟩
    · intro hf
      simp at hf
    · intro ev hev
      simp at hev
      rcases hev with rfl | rfl <;> rfl
  | false =>
    refine ⟨?_, fun _ => rfl, rfl, Nat.zero_le 1, ?_⟩
    · intro ht
      simp at ht
    · intro ev hev
      simp at hev

/-- C6 witness: the lifecycle theorem evaluated at a successful launch. -/
theorem c6_session_lifecycle_witness :
    (run_perplexity 7 goodRun ['h', 'i'] false).1
      = [SessionEvent.opened 7, SessionEvent.closed 7] :=
  (c6_session_lifecycle 7 goodRun ['h', 'i'] false).1 rfl

/-- C7: `POST /ask` returns 200 with a `response` body exactly on pipeline
success, and every internal failure (launch raise, submission failure with
navigation ok, extraction failure) surfaces as status 500 with a `detail`
body; no other status code ever occurs. -/
theorem c7_http_mapping (reqId : Nat) (env : RunEnv) (req : PromptRequest) :
    (∀ out, (run_perplexity reqId env req.prompt req.use_research_mode).2
        = Except.ok out →
      (ask_perplexity reqId env req).2
        = { status := 200, body := ResponseBody.response out })
    ∧ (∀ herr, (run_perplexity reqId env req.prompt req.use_research_mode).2
        = Except.error herr →
      (ask_perplexity reqId env req).2.status = 500
        ∧ (ask_perplexity reqId env req).2.body = ResponseBody.detail herr.detail)
    ∧ ((ask_perplexity reqId env req).2.status = 200
        ∨ (ask_perplexity reqId env req).2.status = 500)
    ∧ (env.launchOk = false → (ask_perplexity reqId env req).2.status = 500)
    ∧ (∀ e, inputFieldCheck env.input req.prompt req.use_research_mode
          = Except.error e →
        env.launchOk = true → env.navigateOk = true →
        (ask_perplexity reqId env req).2.status = 500)
    ∧ (∀ ks e, inputFieldCheck env.input req.prompt req.use_research_mode
          = Except.ok ks →
        getResult env.extract = Except.error e →
        env.launchOk = true → env.navigateOk = true →
        (ask_perplexity reqId env req).2.status = 500) := by
  refine ⟨?_, ?_, ?_, ?_, ?_, ?_⟩
  · intro out hout
    simp [ask_perplexity, hout]
  · intro herr herr_eq
    simp [ask_perplexity, herr_eq]
  · cases hres : (run_perplexity reqId env req.prompt req.use_research_mode).2 with
    | ok out => left; simp [ask_perplexity, hres]
    | error herr => right; simp [ask_perplexity, hres]
  · intro hl
    simp [ask_perplexity, run_perplexity, hl]
  · intro e hin hl hn
    simp [ask_perplexity, run_perplexity, hl, pipelineBody, hn, hin, wrapError]
  · intro ks e hin hext hl hn
    simp [ask_perplexity, run_perplexity, hl, pipelineBody, hn, hin, hext, wrapError]

/-- C7 witness: the mapping evaluated at a fully successful environment. -/
theorem c7_http_mapping_witness :
    (ask_perplexity 0 goodRun hiRequest).2
      = { status := 200, body := ResponseBody.response ['o', 'k'] } :=
  (c7_http_mapping 0 goodRun hiRequest).1 ['o', 'k'] rfl

/-- C8: research-mode activation failure (lookup exhausting its attempts,
or both clicks raising) makes `select_research_mode` return False, which is
non-fatal: the whole submission result is then identical to the default
mode's, and a concrete request with an absent toggle still returns 200. -/
theorem c8_research_nonfatal (env : InputEnv) (content : List Char) :
    (researchFound env.research = false → select_research_mode env.research = false)
    ∧ (researchFound env.research = true → env.research.clickOk = false →
        env.research.jsClickOk = false → select_research_mode env.research = false)
    ∧ (env.research.r1 = none → env.research.r2 = none → env.research.r3 = none →
        select_research_mode env.research = false)
    ∧ (select_research_mode env.research = false →
        inputFieldCheck env content true = inputFieldCheck env content false)
    ∧ (select_research_mode goodInput.research = false
        ∧ (ask_perplexity 0 goodRun
            { prompt := ['h', 'i'], use_research_mode := true }).2.status = 200) := by
  refine ⟨?_, ?_, ?_, ?_, rfl, rfl⟩
  · intro hf
    simp [select_research_mode, hf]
  · intro hf h1 h2
    simp [select_research_mode, hf, h1, h2]
  · intro h1 h2 h3
    simp [select_research_mode, researchFound, foundDisplayed, h1, h2, h3]
  · intro hsel
    unfold inputFieldCheck
    cases h : typingPhase content env.stream env.finalRead with
    | error e => rfl
    | ok u =>
      unfold submitStage
      rw [hsel]
      simp

/-- C8 witness: non-fatality evaluated at the concrete environment whose
research lookups all raise. -/
theorem c8_research_nonfatal_witness :
    inputFieldCheck goodInput ['h', 'i'] true
      = inputFieldCheck goodInput ['h', 'i'] false :=
  (c8_research_nonfatal goodInput ['h', 'i']).2.2.2.1 rfl

lemma findSubmit_iff (env : SubmitEnv) :
    findSubmit env = true ↔
      (foundDisplayed env.p1 = true ∨ foundDisplayed env.p2 = true
        ∨ foundDisplayed env.p3 = true
        ∨ (env.p3 = none ∧ foundDisplayed env.aria = true)) := by
  obtain ⟨p1, p2, p3, ar, c, fr, t, ce, ef, eo⟩ := env
  simp only [findSubmit, findSubmit2, findSubmit3, foundDisplayed]
  rcases p1 with _ | ⟨d1⟩ <;> rcases p2 with _ | ⟨d2⟩ <;> rcases p3 with _ | ⟨d3⟩ <;>
    rcases ar with _ | ⟨da⟩ <;> simp

/-- C9: the submit lookup succeeds exactly when some of the three primary
attempts sees a visible button or the primary lookup raised on the final
attempt and the aria-label fallback sees one; a found visible button whose
click lands submits by click; when nothing is found the Ctrl+Enter path and
then a plain Enter are tried; and the phase fails exactly when every method
on the taken path fails (the click when a button was found, both keyboard
fallbacks otherwise). -/
theorem c9_submit_chain (env : SubmitEnv) (content : List Char) :
    (findSubmit env = true ↔
      (foundDisplayed env.p1 = true ∨ foundDisplayed env.p2 = true
        ∨ foundDisplayed env.p3 = true
        ∨ (env.p3 = none ∧ foundDisplayed env.aria = true)))
    ∧ (findSubmit env = true → env.clickOk = true →
        submitPhase env content = Except.ok [Key.clickSubmit])
    ∧ (findSubmit env = false → ctrlEnterPath env content = none →
        env.enterFindOk = true → env.enterOk = true →
        submitPhase env content = Except.ok [Key.enter])
    ∧ (isErr (submitPhase env content) = true ↔
        ((findSubmit env = true ∧ env.clickOk = false)
          ∨ (findSubmit env = false ∧ ctrlEnterPath env content = none
              ∧ (env.enterFindOk = false ∨ env.enterOk = false)))) := by
  refine ⟨findSubmit_iff env, ?_, ?_, ?_⟩
  · intro hf hc
    simp [submitPhase, hf, hc]
  · intro hf hp he ho
    simp [submitPhase, hf, hp, he, ho]
  · cases hf : findSubmit env with
    | true =>
      cases hc : env.clickOk with
      | true => simp [submitPhase, hf, hc, isErr]
      | false => simp [submitPhase, hf, hc, isErr]
    | false =>
      cases hp : ctrlEnterPath env content with
      | some ks => simp [submitPhase, hf, hp, isErr]
      | none =>
        cases he : env.enterFindOk with
        | true =>
          cases ho : env.enterOk with
          | true => simp [submitPhase, hf, hp, he, ho, isErr]
          | false => simp [submitPhase, hf, hp, he, ho, isErr]
        | false => simp [submitPhase, hf, hp, he, isErr]

/-- C9 witness: the chain evaluated at a clickable button and at an
environment where only the plain Enter succeeds. -/
theorem c9_submit_chain_witness :
    submitPhase goodSubmit ['h', 'i'] = Except.ok [Key.clickSubmit]
    ∧ submitPhase enterOnlySubmit ['h', 'i'] = Except.ok [Key.enter] :=
  ⟨(c9_submit_chain goodSubmit ['h', 'i']).2.1 rfl rfl,
   (c9_submit_chain enterOnlySubmit ['h', 'i']).2.2.1 rfl rfl rfl rfl⟩

/-- C10: in the keyboard-submit fallback with the input observed empty, the
prompt is re-typed as one raw `send_keys` of the whole string (followed by
Ctrl+Enter): the newline splitting of the initial typing is not applied, no
initial segment ever contains a newline character, and for a prompt with
embedded newlines the re-typed string differs from every initially typed
segment. -/
theorem c10_retype_raw (env : SubmitEnv) (t content : List Char)
    (hfind : findSubmit env = false) (hread : env.fallbackRead = some t)
    (hempty : pyStrip t = []) (htype : env.typeOk = true)
    (hce : env.ctrlEnterOk = true) :
    submitPhase env content = Except.ok [Key.sendKeys content, Key.ctrlEnter]
    ∧ (∀ s, Key.sendKeys s ∈ initialTypeKeys content → hasNl s = false)
    ∧ (hasNl content = true →
        ∀ s, Key.sendKeys s ∈ initialTypeKeys content → s ≠ content) := by
  refine ⟨?_, fun s hs => initialTypeKeys_no_nl content s hs, ?_⟩
  · simp [submitPhase, hfind, ctrlEnterPath, hread, hempty, htype, hce]
  · intro hn s hs heq
    have hfalse := initialTypeKeys_no_nl content s hs
    rw [heq, hn] at hfalse
    cases hfalse

/-- C10 witness: the raw re-type evaluated at a prompt with an embedded
newline and an environment where no submit button is found and the input
is observed cleared. -/
theorem c10_retype_raw_witness :
    submitPhase fallbackSubmit ['a', '\n', 'b']
      = Except.ok [Key.sendKeys ['a', '\n', 'b'], Key.ctrlEnter] :=
  (c10_retype_raw fallbackSubmit [] ['a', '\n', 'b'] rfl rfl rfl rfl rfl).1

end Perplexity
